import Mathlib

/-!
Verification of the `LocalNode` engine (canopen/node/local.py): the
object-dictionary-backed data store, the read/write callback chains,
typed SDO abort-code mapping, the sync-driven TPDO transmission counter,
and the network attach/detach wiring.

The embedding mirrors the Python source.  Python dicts become association
lists with last-write-wins insertion; `SdoAbortedError` becomes `Except Nat`
carrying the 32-bit abort code; mutation of `self` becomes explicit state
passing.  External collaborators (the object-dictionary module, the
Network class, the NMT state holder) are modelled from the spec where
noted, as narrow interfaces.
-/

/-- Association-list lookup, modelling Python `dict` access by key. -/
def alistLookup {β : Type} : List (Nat × β) → Nat → Option β
  | [], _ => none
  | (k₂, v) :: rest, k => if k == k₂ then some v else alistLookup rest k

/-- Association-list insertion, modelling Python `dict` assignment:
overwrite the existing binding or append a new one. -/
def alistInsert {β : Type} : List (Nat × β) → Nat → β → List (Nat × β)
  | [], k, v => [(k, v)]
  | (k₂, v₂) :: rest, k, v =>
    if k == k₂ then (k, v) :: rest else (k₂, v₂) :: alistInsert rest k v

/-- An object-dictionary variable entry.  `data_type`, `readable`,
`writable`, `value` (the EDS ParameterValue) and `default` mirror the
attributes read by local.py.  `bit_length` models `len(obj)` ("length of od
variable is in bits").  `encode_raw` is the entry's encoder
(`obj.encode_raw`), kept abstract as a function from values (modelled as
naturals) to byte strings (modelled as lists of naturals). -/
structure ODVariable where
  data_type : Nat
  readable : Bool
  writable : Bool
  bit_length : Nat
  value : Option Nat
  default : Option Nat
  encode_raw : Nat → List Nat

/-- An object-dictionary object: either a simple `Variable` or a compound
record/array holding children addressed by subindex. -/
inductive ODObject where
  | var (v : ODVariable)
  | compound (subs : List (Nat × ODVariable))

/-- Modelled from the spec: `NUMBER_TYPES` of the objectdictionary module
(not under src/), the set of fixed-width numeric data-type tags
(booleans, signed and unsigned integers, reals, per CiA 301). -/
def NUMBER_TYPES : List Nat :=
  [0x01, 0x02, 0x03, 0x04, 0x05, 0x06, 0x07, 0x08,
   0x11, 0x15, 0x16, 0x18, 0x19, 0x1A, 0x1B]

/-- The node state touched by `get_data` / `set_data`.  `σ` is the state of
the external world mutated by write callbacks (the NMT holder, the PDO
buffers): write callbacks act on it and may raise an abort code. -/
structure NodeState (σ : Type) where
  object_dictionary : List (Nat × ODObject)
  data_store : List (Nat × List (Nat × List Nat))
  read_callbacks : List (Nat → Nat → ODVariable → Option Nat)
  write_callbacks : List (Nat → Nat → ODVariable → List Nat → σ → Except Nat σ)
  ext : σ

/-- `LocalNode._find_object`: resolve (index, subindex) in the dictionary.
Aborts 0x06020000 when the index is absent; for a non-Variable (group or
array) entry, aborts 0x06090011 when the subindex is absent. -/
def find_object (od : List (Nat × ODObject)) (index subindex : Nat) :
    Except Nat ODVariable :=
  match alistLookup od index with
  | none => Except.error 0x06020000
  | some (ODObject.var v) => Except.ok v
  | some (ODObject.compound subs) =>
    match alistLookup subs subindex with
    | none => Except.error 0x06090011
    | some v => Except.ok v

/-- The `for callback in self._read_callbacks` loop of `get_data`: return
the first non-None callback result, in registration order. -/
def tryReadCallbacks (cbs : List (Nat → Nat → ODVariable → Option Nat))
    (index subindex : Nat) (obj : ODVariable) : Option Nat :=
  match cbs with
  | [] => none
  | cb :: rest =>
    match cb index subindex obj with
    | some result => some result
    | none => tryReadCallbacks rest index subindex obj

/-- Lookup `self.data_store[index][subindex]`; `none` models the KeyError
caught in `get_data` (either level missing). -/
def dsLookup (ds : List (Nat × List (Nat × List Nat))) (index subindex : Nat) :
    Option (List Nat) :=
  match alistLookup ds index with
  | none => none
  | some inner => alistLookup inner subindex

/-- `self.data_store.setdefault(index, {})` followed by
`self.data_store[index][subindex] = bytes(data)`. -/
def dsInsert (ds : List (Nat × List (Nat × List Nat)))
    (index subindex : Nat) (data : List Nat) :
    List (Nat × List (Nat × List Nat)) :=
  match alistLookup ds index with
  | none => alistInsert ds index [(subindex, data)]
  | some inner => alistInsert ds index (alistInsert inner subindex data)

/-- `LocalNode.get_data`: resolve the entry, optionally check readability
(abort 0x06010001), then fall back through read callbacks, stored data,
EDS ParameterValue, default value, and finally abort 0x060A0023. -/
def get_data {σ : Type} (node : NodeState σ) (index subindex : Nat)
    (check_readable : Bool) : Except Nat (List Nat) :=
  match find_object node.object_dictionary index subindex with
  | Except.error e => Except.error e
  | Except.ok obj =>
    if check_readable && !obj.readable then
      Except.error 0x06010001
    else
      match tryReadCallbacks node.read_callbacks index subindex obj with
      | some result => Except.ok (obj.encode_raw result)
      | none =>
        match dsLookup node.data_store index subindex with
        | some stored => Except.ok stored
        | none =>
          match obj.value with
          | some v => Except.ok (obj.encode_raw v)
          | none =>
            match obj.default with
            | some v => Except.ok (obj.encode_raw v)
            | none => Except.error 0x060A0023

/-- The `for callback in self._write_callbacks` loop of `set_data`: run
every callback in registration order on the external state; a raising
callback stops the loop, and the effects of callbacks already run stand
(first component: the abort code, when one was raised; second component:
the external state reached). -/
def runWriteCallbacks {σ : Type}
    (cbs : List (Nat → Nat → ODVariable → List Nat → σ → Except Nat σ))
    (index subindex : Nat) (obj : ODVariable) (data : List Nat) (ext : σ) :
    Option Nat × σ :=
  match cbs with
  | [] => (none, ext)
  | cb :: rest =>
    match cb index subindex obj data ext with
    | Except.ok ext₂ => runWriteCallbacks rest index subindex obj data ext₂
    | Except.error e => (some e, ext)

/-- `LocalNode.set_data`: resolve the entry, optionally check writability
(abort 0x06010002), check the byte length against the declared bit length
for numeric types (abort 0x06070010), run every write callback, then store
the raw bytes.  Returns the outcome together with the resulting node
state (a Python method mutates `self` even when it then raises). -/
def set_data {σ : Type} (node : NodeState σ) (index subindex : Nat)
    (data : List Nat) (check_writable : Bool) :
    Except Nat Unit × NodeState σ :=
  match find_object node.object_dictionary index subindex with
  | Except.error e => (Except.error e, node)
  | Except.ok obj =>
    if check_writable && !obj.writable then
      (Except.error 0x06010002, node)
    else if NUMBER_TYPES.contains obj.data_type
        && !(8 * data.length == obj.bit_length) then
      (Except.error 0x06070010, node)
    else
      match runWriteCallbacks node.write_callbacks index subindex obj data
          node.ext with
      | (some e, ext₂) => (Except.error e, { node with ext := ext₂ })
      | (none, ext₂) =>
        (Except.ok (),
         { node with
             ext := ext₂,
             data_store := dsInsert node.data_store index subindex data })

/-- A TPDO map as seen by `LocalNode._on_sync`: the `enabled` flag, the
transmission type `trans_type`, and the `_internal_sync_count` counter. -/
structure PdoMap where
  enabled : Bool
  trans_type : Nat
  internal_sync_count : Nat
  deriving DecidableEq

/-- The body of the `for tpdo in self.tpdo.map.values()` loop of
`_on_sync`: if the map is enabled, increment its counter, and when
`trans_type <= counter and trans_type <= 0xF0` transmit (second component
`true`) and reset the counter to 0. -/
def sync_step_map (m : PdoMap) : PdoMap × Bool :=
  if m.enabled then
    let count := m.internal_sync_count + 1
    if m.trans_type ≤ count ∧ m.trans_type ≤ 0xF0 then
      ({ m with internal_sync_count := 0 }, true)
    else
      ({ m with internal_sync_count := count }, false)
  else (m, false)

/-- The node state read by `_on_sync`: the NMT state string and the
TPDO maps in the iteration order of `self.tpdo.map.values()`. -/
structure SyncNode where
  nmt_state : String
  tpdo_maps : List PdoMap
  deriving DecidableEq

/-- `LocalNode._on_sync`: a no-op unless the NMT state equals
"OPERATIONAL"; otherwise step every TPDO map.  The second component logs,
per map, whether that map transmitted during this sync event.  The
`can_id`, `data` and `timestamp` arguments are unused by the source. -/
def on_sync (node : SyncNode) (_can_id : Nat) (_data : List Nat)
    (_timestamp : Nat) : SyncNode × List Bool :=
  if !(node.nmt_state == "OPERATIONAL") then
    (node, node.tpdo_maps.map fun _ => false)
  else
    let results := node.tpdo_maps.map sync_step_map
    ({ node with tpdo_maps := results.map Prod.fst },
     results.map Prod.snd)

/-- Deliver `n` successive sync events to the node. -/
def run_syncs : Nat → SyncNode → SyncNode
  | 0, node => node
  | n + 1, node => run_syncs n (on_sync node 0x80 [] 0).1

/-- Number of transmits of the map at position `i` across `n` successive
sync events delivered to the node. -/
def transmits_of_map : Nat → SyncNode → Nat → Nat
  | 0, _, _ => 0
  | n + 1, node, i =>
    (if (on_sync node 0x80 [] 0).2.getD i false then 1 else 0)
      + transmits_of_map n (on_sync node 0x80 [] 0).1 i

/-- `n`-fold iteration of the per-map sync step, counting transmits:
the trajectory of one map across `n` sync events. -/
def iter_sync_map : Nat → PdoMap → PdoMap × Nat
  | 0, m => (m, 0)
  | n + 1, m =>
    let step := sync_step_map m
    let rest := iter_sync_map n step.1
    (rest.1, (if step.2 then 1 else 0) + rest.2)

/-- Tags for the three handlers that `associate_network` subscribes:
`self.sdo.on_request`, `self.nmt.on_command`, `self._on_sync`. -/
inductive Handler where
  | sdo_on_request
  | nmt_on_command
  | on_sync_handler
  deriving DecidableEq

/-- Modelled from the spec: the Transport Binding (the Network class, not
under src/) keeps a subscription table; `subscribe(address_id, handler)`
adds an entry. -/
def subscribe (net : List (Nat × Handler)) (cob_id : Nat) (h : Handler) :
    List (Nat × Handler) :=
  net ++ [(cob_id, h)]

/-- Modelled from the spec: `unsubscribe(address_id, handler)` removes
that handler's subscription for that address from the table. -/
def unsubscribe (net : List (Nat × Handler)) (cob_id : Nat) (h : Handler) :
    List (Nat × Handler) :=
  net.filter fun entry => !(entry.1 == cob_id && entry.2 == h)

/-- A Python runtime error, as opposed to an SDO abort: dereferencing an
attribute of `None` raises `AttributeError`. -/
inductive PyError where
  | attributeError
  deriving DecidableEq

/-- The slice of `LocalNode` touched by `associate_network` and
`remove_network`: the node id (fixing `self.sdo.rx_cobid = 0x600 + id`)
and the `network` reference, `none` when detached.  The attached network's
subscription table is held inline (the node is its only writer here). -/
structure NetNode where
  node_id : Nat
  network : Option (List (Nat × Handler))
  deriving DecidableEq

/-- `LocalNode.associate_network`: store the network reference and
subscribe the SDO request handler at `0x600 + id`, the NMT command
handler at 0, and `_on_sync` at `SyncProducer.cob_id` (0x80). -/
def associate_network (node : NetNode) (net : List (Nat × Handler)) :
    NetNode :=
  { node with
      network :=
        some (subscribe
               (subscribe
                 (subscribe net (0x600 + node.node_id) Handler.sdo_on_request)
                 0 Handler.nmt_on_command)
               0x80 Handler.on_sync_handler) }

/-- `LocalNode.remove_network`: call `self.network.unsubscribe` for the
SDO request handler and the NMT command handler, then clear the network
reference.  When `self.network` is `None` (the node was never attached, or
was already detached), the very first attribute access raises
`AttributeError`.  On success, returns the detached node together with the
network's remaining subscription table. -/
def remove_network (node : NetNode) :
    Except PyError (NetNode × List (Nat × Handler)) :=
  match node.network with
  | none => Except.error PyError.attributeError
  | some net =>
    let net₁ := unsubscribe net (0x600 + node.node_id) Handler.sdo_on_request
    let net₂ := unsubscribe net₁ 0 Handler.nmt_on_command
    Except.ok ({ node with network := none }, net₂)


/-! ## Concrete test fixtures -/

/-- Little-endian 16-bit encoder for the test entry. -/
def encU16 : Nat → List Nat := fun v => [v % 256, v / 256 % 256]

/-- A readable and writable UNSIGNED16 entry (data type 0x06, 16 bits),
with no EDS ParameterValue and no default. -/
def objU16 : ODVariable :=
  { data_type := 0x06, readable := true, writable := true, bit_length := 16,
    value := none, default := none, encode_raw := encU16 }

/-- The same entry made read-only. -/
def objRO : ODVariable :=
  { objU16 with writable := false }

/-- A node whose dictionary holds the single entry (0x2000, 0x00), with an
empty data store and no callbacks. -/
def nodeFix : NodeState Nat :=
  { object_dictionary := [(0x2000, ODObject.var objU16)], data_store := [],
    read_callbacks := [], write_callbacks := [], ext := 0 }

/-- `nodeFix` with the raw bytes 2A 00 cached for (0x2000, 0x00). -/
def nodeStoreFix : NodeState Nat :=
  { nodeFix with data_store := [(0x2000, [(0, [42, 0])])] }

/-- A node whose dictionary holds the read-only entry at (0x2001, 0x00). -/
def nodeROFix : NodeState Nat :=
  { nodeFix with object_dictionary := [(0x2001, ODObject.var objRO)] }

/-- An OPERATIONAL node with one enabled map of transmission type 2. -/
def syncNodeFix : SyncNode :=
  { nmt_state := "OPERATIONAL",
    tpdo_maps := [{ enabled := true, trans_type := 2,
                    internal_sync_count := 0 }] }

/-- An OPERATIONAL node with one enabled map of transmission type 255. -/
def syncNode255 : SyncNode :=
  { nmt_state := "OPERATIONAL",
    tpdo_maps := [{ enabled := true, trans_type := 255,
                    internal_sync_count := 0 }] }

/-! ## Helper lemmas -/

theorem alistLookup_insert_self {β : Type} (l : List (Nat × β)) (k : Nat)
    (v : β) : alistLookup (alistInsert l k v) k = some v := by
  induction l with
  | nil => simp [alistInsert, alistLookup]
  | cons p rest ih =>
    obtain ⟨k₂, v₂⟩ := p
    by_cases h : k = k₂
    · simp [alistInsert, alistLookup, h]
    · simp [alistInsert, alistLookup, h, ih]

theorem tryReadCallbacks_of_all_none
    (cbs : List (Nat → Nat → ODVariable → Option Nat))
    (index subindex : Nat) (obj : ODVariable)
    (h : ∀ cb ∈ cbs, cb index subindex obj = none) :
    tryReadCallbacks cbs index subindex obj = none := by
  induction cbs with
  | nil => rfl
  | cons cb rest ih =>
    have h₁ := h cb (by simp)
    simp only [tryReadCallbacks, h₁]
    exact ih fun c hc => h c (by simp [hc])

theorem tryReadCallbacks_append_none
    (pre cbs : List (Nat → Nat → ODVariable → Option Nat))
    (index subindex : Nat) (obj : ODVariable)
    (h : ∀ cb ∈ pre, cb index subindex obj = none) :
    tryReadCallbacks (pre ++ cbs) index subindex obj
      = tryReadCallbacks cbs index subindex obj := by
  induction pre with
  | nil => rfl
  | cons cb rest ih =>
    have h₁ := h cb (by simp)
    simp only [List.cons_append, tryReadCallbacks, h₁]
    exact ih fun c hc => h c (by simp [hc])

theorem runWriteCallbacks_append {σ : Type}
    (pre post : List (Nat → Nat → ODVariable → List Nat → σ → Except Nat σ))
    (index subindex : Nat) (obj : ODVariable) (data : List Nat) (ext : σ) :
    runWriteCallbacks (pre ++ post) index subindex obj data ext
      = match runWriteCallbacks pre index subindex obj data ext with
        | (none, ext₂) => runWriteCallbacks post index subindex obj data ext₂
        | (some e, ext₂) => (some e, ext₂) := by
  induction pre generalizing ext with
  | nil => rfl
  | cons cb rest ih =>
    simp only [List.cons_append, runWriteCallbacks]
    cases cb index subindex obj data ext with
    | ok ext₂ => exact ih ext₂
    | error e => rfl

theorem runWriteCallbacks_of_all_ok {σ : Type}
    (cbs : List (Nat → Nat → ODVariable → List Nat → σ → Except Nat σ))
    (index subindex : Nat) (obj : ODVariable) (data : List Nat)
    (h : ∀ cb ∈ cbs, ∀ ext : σ, ∃ ext₂, cb index subindex obj data ext
           = Except.ok ext₂) :
    ∀ ext : σ, (runWriteCallbacks cbs index subindex obj data ext).1 = none := by
  induction cbs with
  | nil => intro ext; rfl
  | cons cb rest ih =>
    intro ext
    obtain ⟨ext₂, h₂⟩ := h cb (by simp) ext
    simp only [runWriteCallbacks, h₂]
    exact ih (fun c hc => h c (by simp [hc])) ext₂

theorem dsLookup_dsInsert_self (ds : List (Nat × List (Nat × List Nat)))
    (index subindex : Nat) (data : List Nat) :
    dsLookup (dsInsert ds index subindex data) index subindex = some data := by
  unfold dsInsert dsLookup
  cases h : alistLookup ds index with
  | none => simp [alistLookup_insert_self, alistLookup]
  | some inner => simp [alistLookup_insert_self]

/-- After successful resolution and a passing readability check,
`get_data` is the four-tier fallback on the resolved entry. -/
theorem get_data_resolved {σ : Type} (node : NodeState σ)
    (index subindex : Nat) (check_readable : Bool) (obj : ODVariable)
    (hfind : find_object node.object_dictionary index subindex = Except.ok obj)
    (hread : check_readable = true → obj.readable = true) :
    get_data node index subindex check_readable
      = match tryReadCallbacks node.read_callbacks index subindex obj with
        | some result => Except.ok (obj.encode_raw result)
        | none =>
          match dsLookup node.data_store index subindex with
          | some stored => Except.ok stored
          | none =>
            match obj.value with
            | some v => Except.ok (obj.encode_raw v)
            | none =>
              match obj.default with
              | some v => Except.ok (obj.encode_raw v)
              | none => Except.error 0x060A0023 := by
  have hcheck : (check_readable && !obj.readable) = false := by
    cases check_readable with
    | false => rfl
    | true => simp [hread rfl]
  simp [get_data, hfind, hcheck]

/-- After successful resolution and passing writability and length checks,
`set_data` runs the write callbacks and then writes the store. -/
theorem set_data_checks_pass {σ : Type} (node : NodeState σ)
    (index subindex : Nat) (data : List Nat) (check_writable : Bool)
    (obj : ODVariable)
    (hfind : find_object node.object_dictionary index subindex = Except.ok obj)
    (hw : check_writable = true → obj.writable = true)
    (hlen : NUMBER_TYPES.contains obj.data_type = true →
       8 * data.length = obj.bit_length) :
    set_data node index subindex data check_writable
      = match runWriteCallbacks node.write_callbacks index subindex obj data
            node.ext with
        | (some e, ext₂) => (Except.error e, { node with ext := ext₂ })
        | (none, ext₂) =>
          (Except.ok (),
           { node with
               ext := ext₂,
               data_store := dsInsert node.data_store index subindex data }) := by
  have hwpass : (check_writable && !obj.writable) = false := by
    cases check_writable with
    | false => rfl
    | true => simp [hw rfl]
  simp [set_data, hfind, hwpass]
  intro hmem hne
  exact absurd (hlen (by simpa using hmem)) hne

/-- C1: on an entry that resolves and passes the readability check,
`get_data` follows the four-tier fallback in this exact order: the first
read callback returning a value (in registration order) wins and its
result is encoded, the rest being skipped; otherwise the stored raw bytes
are returned unchanged; otherwise the static (EDS ParameterValue) value is
encoded and returned; otherwise the default value is encoded and returned;
otherwise the call aborts with ResourceUnavailable 0x060A0023. -/
theorem C1_get_data_fallback_order {σ : Type} (node : NodeState σ)
    (index subindex : Nat) (check_readable : Bool) (obj : ODVariable)
    (hfind : find_object node.object_dictionary index subindex = Except.ok obj)
    (hread : check_readable = true → obj.readable = true) :
    (∀ pre cb post v, node.read_callbacks = pre ++ cb :: post →
       (∀ c ∈ pre, c index subindex obj = none) →
       cb index subindex obj = some v →
       get_data node index subindex check_readable
         = Except.ok (obj.encode_raw v))
    ∧ ((∀ c ∈ node.read_callbacks, c index subindex obj = none) →
       ∀ stored, dsLookup node.data_store index subindex = some stored →
       get_data node index subindex check_readable = Except.ok stored)
    ∧ ((∀ c ∈ node.read_callbacks, c index subindex obj = none) →
       dsLookup node.data_store index subindex = none →
       ∀ v, obj.value = some v →
       get_data node index subindex check_readable
         = Except.ok (obj.encode_raw v))
    ∧ ((∀ c ∈ node.read_callbacks, c index subindex obj = none) →
       dsLookup node.data_store index subindex = none →
       obj.value = none → ∀ v, obj.default = some v →
       get_data node index subindex check_readable
         = Except.ok (obj.encode_raw v))
    ∧ ((∀ c ∈ node.read_callbacks, c index subindex obj = none) →
       dsLookup node.data_store index subindex = none →
       obj.value = none → obj.default = none →
       get_data node index subindex check_readable
         = Except.error 0x060A0023) := by
  have hbase := get_data_resolved node index subindex check_readable obj
    hfind hread
  refine ⟨?_, ?_, ?_, ?_, ?_⟩
  · intro pre cb post v hcbs hpre hcb
    have htry : tryReadCallbacks node.read_callbacks index subindex obj
        = some v := by
      rw [hcbs, tryReadCallbacks_append_none pre (cb :: post) index subindex
        obj hpre]
      simp [tryReadCallbacks, hcb]
    rw [hbase, htry]
  · intro hall stored hstore
    have htry := tryReadCallbacks_of_all_none node.read_callbacks index
      subindex obj hall
    rw [hbase, htry, hstore]
  · intro hall hstore v hv
    have htry := tryReadCallbacks_of_all_none node.read_callbacks index
      subindex obj hall
    rw [hbase, htry, hstore, hv]
  · intro hall hstore hv v hd
    have htry := tryReadCallbacks_of_all_none node.read_callbacks index
      subindex obj hall
    rw [hbase, htry, hstore, hv, hd]
  · intro hall hstore hv hd
    have htry := tryReadCallbacks_of_all_none node.read_callbacks index
      subindex obj hall
    rw [hbase, htry, hstore, hv, hd]

/-- C3: for any (index, subindex) and any store contents, both `get_data`
and `set_data` abort with NoSuchIndex 0x06020000 when the index is absent
from the object dictionary, and with NoSuchSubindex 0x06090011 when the
index resolves to a compound entry lacking the subindex. -/
theorem C3_resolution_errors {σ : Type} (node : NodeState σ)
    (index subindex : Nat) (check_readable : Bool) (data : List Nat)
    (check_writable : Bool) :
    (alistLookup node.object_dictionary index = none →
       get_data node index subindex check_readable = Except.error 0x06020000
       ∧ (set_data node index subindex data check_writable).1
           = Except.error 0x06020000)
    ∧ (∀ subs, alistLookup node.object_dictionary index
          = some (ODObject.compound subs) →
       alistLookup subs subindex = none →
       get_data node index subindex check_readable = Except.error 0x06090011
       ∧ (set_data node index subindex data check_writable).1
           = Except.error 0x06090011) := by
  constructor
  · intro h
    have hfind : find_object node.object_dictionary index subindex
        = Except.error 0x06020000 := by
      simp [find_object, h]
    exact ⟨by simp [get_data, hfind], by simp [set_data, hfind]⟩
  · intro subs h hsub
    have hfind : find_object node.object_dictionary index subindex
        = Except.error 0x06090011 := by
      simp [find_object, h, hsub]
    exact ⟨by simp [get_data, hfind], by simp [set_data, hfind]⟩

/-- C10: every validation failure of `set_data` — absent index, absent
subindex on a compound entry, read-only entry under `check_writable`, and
numeric length mismatch — returns the corresponding abort code with the
node state completely unchanged: the data store is untouched and no write
callback was invoked (the external state `ext` is exactly as before). -/
theorem C10_set_data_validation_atomic {σ : Type} (node : NodeState σ)
    (index subindex : Nat) (data : List Nat) (check_writable : Bool) :
    (alistLookup node.object_dictionary index = none →
       set_data node index subindex data check_writable
         = (Except.error 0x06020000, node))
    ∧ (∀ subs, alistLookup node.object_dictionary index
          = some (ODObject.compound subs) →
       alistLookup subs subindex = none →
       set_data node index subindex data check_writable
         = (Except.error 0x06090011, node))
    ∧ (∀ obj, find_object node.object_dictionary index subindex
          = Except.ok obj →
       check_writable = true → obj.writable = false →
       set_data node index subindex data check_writable
         = (Except.error 0x06010002, node))
    ∧ (∀ obj, find_object node.object_dictionary index subindex
          = Except.ok obj →
       (check_writable = true → obj.writable = true) →
       NUMBER_TYPES.contains obj.data_type = true →
       ¬(8 * data.length = obj.bit_length) →
       set_data node index subindex data check_writable
         = (Except.error 0x06070010, node)) := by
  refine ⟨?_, ?_, ?_, ?_⟩
  · intro h
    have hfind : find_object node.object_dictionary index subindex
        = Except.error 0x06020000 := by
      simp [find_object, h]
    simp [set_data, hfind]
  · intro subs h hsub
    have hfind : find_object node.object_dictionary index subindex
        = Except.error 0x06090011 := by
      simp [find_object, h, hsub]
    simp [set_data, hfind]
  · intro obj hfind hcw hro
    simp [set_data, hfind, hcw, hro]
  · intro obj hfind hw hnum hne
    have hwpass : (check_writable && !obj.writable) = false := by
      cases check_writable with
      | false => rfl
      | true => simp [hw rfl]
    simp [set_data, hfind, hwpass, hne]
    intro hnotmem
    exact absurd (by simpa using hnum) hnotmem

/-- C4: on an entry that resolves, passes the writability check, and has a
fixed-width numeric data type, `set_data` aborts with LengthMismatch
0x06070010 (leaving the node untouched) exactly when `8 * len(data)`
differs from the declared bit length; when the lengths match exactly (and
no write callback raises), the call succeeds — no truncation, no padding.
-/
theorem C4_length_guard {σ : Type} (node : NodeState σ)
    (index subindex : Nat) (data : List Nat) (check_writable : Bool)
    (obj : ODVariable)
    (hfind : find_object node.object_dictionary index subindex = Except.ok obj)
    (hw : check_writable = true → obj.writable = true)
    (hnum : NUMBER_TYPES.contains obj.data_type = true) :
    (¬(8 * data.length = obj.bit_length) →
       set_data node index subindex data check_writable
         = (Except.error 0x06070010, node))
    ∧ (8 * data.length = obj.bit_length →
       (∀ cb ∈ node.write_callbacks, ∀ ext : σ, ∃ ext₂,
          cb index subindex obj data ext = Except.ok ext₂) →
       (set_data node index subindex data check_writable).1
         = Except.ok ()) := by
  constructor
  · intro hne
    have hwpass : (check_writable && !obj.writable) = false := by
      cases check_writable with
      | false => rfl
      | true => simp [hw rfl]
    simp [set_data, hfind, hwpass, hne]
    intro hnotmem
    exact absurd (by simpa using hnum) hnotmem
  · intro hlen hcb
    have hbase := set_data_checks_pass node index subindex data
      check_writable obj hfind hw fun _ => hlen
    have hrun := runWriteCallbacks_of_all_ok node.write_callbacks index
      subindex obj data hcb node.ext
    rcases hrw : runWriteCallbacks node.write_callbacks index subindex obj
        data node.ext with ⟨o, ext₂⟩
    rw [hrw] at hrun hbase
    rcases o with _ | e
    · rw [hbase]
    · simp at hrun

/-- C5: once resolution and both checks pass, `set_data` runs the write
callbacks and then stores the raw bytes keyed by (index, subindex): when
all callbacks complete, the store is written no matter what the callbacks
did to the external state, and the written bytes are retrievable verbatim
(overwriting any previous binding); when a callback raises, the abort
propagates to the caller, the store is untouched, and the effects of the
callbacks already run stand.  Callbacks compose in registration order:
running `pre ++ post` runs `pre` first and, only if no callback of `pre`
raised, continues with `post` from the state `pre` reached. -/
theorem C5_write_interceptors_then_store {σ : Type} :
    (∀ (node : NodeState σ) (index subindex : Nat) (data : List Nat)
       (check_writable : Bool) (obj : ODVariable),
       find_object node.object_dictionary index subindex = Except.ok obj →
       (check_writable = true → obj.writable = true) →
       (NUMBER_TYPES.contains obj.data_type = true →
          8 * data.length = obj.bit_length) →
       (∀ ext₂ : σ,
          runWriteCallbacks node.write_callbacks index subindex obj data
              node.ext = (none, ext₂) →
          set_data node index subindex data check_writable
            = (Except.ok (),
               { node with
                   ext := ext₂,
                   data_store := dsInsert node.data_store index subindex
                     data })
          ∧ dsLookup (dsInsert node.data_store index subindex data) index
              subindex = some data)
       ∧ (∀ (e : Nat) (ext₂ : σ),
          runWriteCallbacks node.write_callbacks index subindex obj data
              node.ext = (some e, ext₂) →
          set_data node index subindex data check_writable
            = (Except.error e, { node with ext := ext₂ })))
    ∧ (∀ (pre post :
          List (Nat → Nat → ODVariable → List Nat → σ → Except Nat σ))
         (index subindex : Nat) (obj : ODVariable) (data : List Nat)
         (ext : σ),
       runWriteCallbacks (pre ++ post) index subindex obj data ext
         = match runWriteCallbacks pre index subindex obj data ext with
           | (none, ext₂) =>
             runWriteCallbacks post index subindex obj data ext₂
           | (some e, ext₂) => (some e, ext₂)) := by
  constructor
  · intro node index subindex data check_writable obj hfind hw hlen
    have hbase := set_data_checks_pass node index subindex data
      check_writable obj hfind hw hlen
    constructor
    · intro ext₂ hrw
      rw [hrw] at hbase
      exact ⟨hbase, dsLookup_dsInsert_self node.data_store index subindex
        data⟩
    · intro e ext₂ hrw
      rw [hrw] at hbase
      exact hbase
  · intro pre post index subindex obj data ext
    exact runWriteCallbacks_append pre post index subindex obj data ext

/-- C6: round-trip — on a writable and readable entry, with byte length
matching the bit length when the type is numeric, no read callback
registered, and no write callback raising, `set_data` succeeds and an
immediately following `get_data` returns exactly the written bytes. -/
theorem C6_round_trip {σ : Type} (node : NodeState σ)
    (index subindex : Nat) (data : List Nat)
    (check_writable check_readable : Bool) (obj : ODVariable)
    (hfind : find_object node.object_dictionary index subindex = Except.ok obj)
    (hwrit : obj.writable = true) (hread : obj.readable = true)
    (hlen : NUMBER_TYPES.contains obj.data_type = true →
       8 * data.length = obj.bit_length)
    (hnocb : node.read_callbacks = [])
    (hok : ∀ cb ∈ node.write_callbacks, ∀ ext : σ, ∃ ext₂,
       cb index subindex obj data ext = Except.ok ext₂) :
    (set_data node index subindex data check_writable).1 = Except.ok ()
    ∧ get_data (set_data node index subindex data check_writable).2 index
        subindex check_readable = Except.ok data := by
  have hbase := set_data_checks_pass node index subindex data check_writable
    obj hfind (fun _ => hwrit) hlen
  have hrun := runWriteCallbacks_of_all_ok node.write_callbacks index
    subindex obj data hok node.ext
  rcases hrw : runWriteCallbacks node.write_callbacks index subindex obj
      data node.ext with ⟨o, ext₂⟩
  rw [hrw] at hrun hbase
  rcases o with _ | e
  · rw [hbase]
    refine ⟨rfl, ?_⟩
    have hbase₂ := get_data_resolved
      { node with
          ext := ext₂,
          data_store := dsInsert node.data_store index subindex data }
      index subindex check_readable obj hfind (fun _ => hread)
    rw [hbase₂]
    simp [hnocb, tryReadCallbacks, dsLookup_dsInsert_self]
  · simp at hrun

/-! ## Sync protocol lemmas -/

theorem sync_step_map_disabled (m : PdoMap) (h : m.enabled = false) :
    sync_step_map m = (m, false) := by
  simp [sync_step_map, h]

theorem sync_step_map_trans_type (m : PdoMap) :
    (sync_step_map m).1.trans_type = m.trans_type := by
  unfold sync_step_map
  by_cases he : m.enabled
  · by_cases hcond : m.trans_type ≤ m.internal_sync_count + 1
        ∧ m.trans_type ≤ 240
    · simp [he, hcond]
    · simp [he, hcond]
  · simp [he]

theorem sync_step_map_reserved (m : PdoMap) (h : 240 < m.trans_type) :
    (sync_step_map m).2 = false := by
  unfold sync_step_map
  by_cases he : m.enabled
  · have hcond : ¬(m.trans_type ≤ m.internal_sync_count + 1
        ∧ m.trans_type ≤ 240) := by omega
    simp [he, hcond]
  · simp [he]

theorem on_sync_not_operational (node : SyncNode) (c : Nat) (d : List Nat)
    (t : Nat) (h : ¬node.nmt_state = "OPERATIONAL") :
    on_sync node c d t = (node, node.tpdo_maps.map fun _ => false) := by
  simp [on_sync, h]

theorem on_sync_get (node : SyncNode) (c : Nat) (d : List Nat) (t : Nat)
    (i : Nat) (m : PdoMap) (h : node.nmt_state = "OPERATIONAL")
    (hm : node.tpdo_maps[i]? = some m) :
    (on_sync node c d t).1.nmt_state = "OPERATIONAL"
    ∧ (on_sync node c d t).1.tpdo_maps[i]? = some (sync_step_map m).1
    ∧ (on_sync node c d t).2[i]? = some (sync_step_map m).2 := by
  simp [on_sync, h, List.getElem?_map, hm]

theorem run_syncs_get (n : Nat) : ∀ (node : SyncNode) (i : Nat) (m : PdoMap),
    node.nmt_state = "OPERATIONAL" → node.tpdo_maps[i]? = some m →
    (run_syncs n node).tpdo_maps[i]? = some (iter_sync_map n m).1
    ∧ transmits_of_map n node i = (iter_sync_map n m).2 := by
  induction n with
  | zero =>
    intro node i m _ hm
    exact ⟨hm, rfl⟩
  | succ n ih =>
    intro node i m h hm
    obtain ⟨hst, hmap, hflag⟩ := on_sync_get node 0x80 [] 0 i m h hm
    obtain ⟨ih1, ih2⟩ := ih (on_sync node 0x80 [] 0).1 i (sync_step_map m).1
      hst hmap
    constructor
    · show (run_syncs n (on_sync node 0x80 [] 0).1).tpdo_maps[i]? = _
      rw [ih1]
      simp [iter_sync_map]
    · show (if (on_sync node 0x80 [] 0).2.getD i false then 1 else 0)
          + transmits_of_map n (on_sync node 0x80 [] 0).1 i = _
      rw [ih2]
      have hgd : (on_sync node 0x80 [] 0).2.getD i false
          = (sync_step_map m).2 := by
        simp [List.getD_eq_getElem?_getD, hflag]
      rw [hgd]
      simp [iter_sync_map]

theorem iter_sync_map_count (T : Nat) (hT1 : 1 ≤ T) (hT2 : T ≤ 240) :
    ∀ (n c : Nat), c < T →
      iter_sync_map n
          { enabled := true, trans_type := T, internal_sync_count := c }
        = ({ enabled := true, trans_type := T,
             internal_sync_count := (c + n) % T },
           (c + n) / T) := by
  intro n
  induction n with
  | zero =>
    intro c hc
    simp [iter_sync_map, Nat.mod_eq_of_lt hc, Nat.div_eq_of_lt hc]
  | succ n ih =>
    intro c hc
    by_cases h : T ≤ c + 1
    · have hstep : sync_step_map
          { enabled := true, trans_type := T, internal_sync_count := c }
          = ({ enabled := true, trans_type := T, internal_sync_count := 0 },
             true) := by
        simp [sync_step_map, h, hT2]
      have hrest := ih 0 (by omega)
      simp only [iter_sync_map, hstep, hrest]
      have hsum : c + (n + 1) = n + T := by omega
      rw [hsum]
      have h0 : 0 < T := by omega
      simp [Nat.add_mod_right, Nat.add_div_right n h0, Nat.add_comm]
      rw [Nat.add_comm T n, Nat.add_div_right n h0]
    · have hstep : sync_step_map
          { enabled := true, trans_type := T, internal_sync_count := c }
          = ({ enabled := true, trans_type := T,
               internal_sync_count := c + 1 }, false) := by
        simp [sync_step_map, h]
      have hrest := ih (c + 1) (by omega)
      simp only [iter_sync_map, hstep, hrest]
      have hsum : c + 1 + n = c + (n + 1) := by omega
      rw [hsum]
      simp

/-- C2: for an enabled outbound map with transmission type T, 1 ≤ T ≤ 240,
while the NMT state is OPERATIONAL: every sync event steps every map in
place — incrementing its counter, transmitting exactly when
T ≤ counter + 1 and then resetting the counter to 0 — so that over n
sync events starting from counter 0 exactly n / T transmits occur and the
counter ends at n % T; when the state is not OPERATIONAL the event is a
no-op with no transmit and no counter change; and a disabled map is never
stepped. -/
theorem C2_sync_transmission_counting (T : Nat) (hT1 : 1 ≤ T)
    (hT2 : T ≤ 240) :
    (∀ m : PdoMap, m.enabled = true → m.trans_type = T →
       sync_step_map m
         = if T ≤ m.internal_sync_count + 1
           then ({ m with internal_sync_count := 0 }, true)
           else ({ m with internal_sync_count := m.internal_sync_count + 1 },
                 false))
    ∧ (∀ (node : SyncNode) (c : Nat) (d : List Nat) (t i : Nat) (m : PdoMap),
       node.nmt_state = "OPERATIONAL" → node.tpdo_maps[i]? = some m →
       (on_sync node c d t).1.tpdo_maps[i]? = some (sync_step_map m).1
       ∧ (on_sync node c d t).2[i]? = some (sync_step_map m).2)
    ∧ (∀ (node : SyncNode) (n i : Nat),
       node.nmt_state = "OPERATIONAL" →
       node.tpdo_maps[i]?
         = some { enabled := true, trans_type := T,
                  internal_sync_count := 0 } →
       transmits_of_map n node i = n / T
       ∧ (run_syncs n node).tpdo_maps[i]?
           = some { enabled := true, trans_type := T,
                    internal_sync_count := n % T })
    ∧ (∀ (node : SyncNode) (c : Nat) (d : List Nat) (t : Nat),
       ¬node.nmt_state = "OPERATIONAL" →
       on_sync node c d t = (node, node.tpdo_maps.map fun _ => false))
    ∧ (∀ m : PdoMap, m.enabled = false → sync_step_map m = (m, false)) := by
  refine ⟨?_, ?_, ?_, ?_, ?_⟩
  · intro m he hTt
    subst hTt
    by_cases h : m.trans_type ≤ m.internal_sync_count + 1
    · have hcond : m.trans_type ≤ m.internal_sync_count + 1
          ∧ m.trans_type ≤ 240 := ⟨h, hT2⟩
      simp [sync_step_map, he, hcond, h]
    · have hcond : ¬(m.trans_type ≤ m.internal_sync_count + 1
          ∧ m.trans_type ≤ 240) := fun hand => h hand.1
      simp [sync_step_map, he, hcond, h]
  · intro node c d t i m h hm
    exact (on_sync_get node c d t i m h hm).2
  · intro node n i h hm
    obtain ⟨h1, h2⟩ := run_syncs_get n node i
      { enabled := true, trans_type := T, internal_sync_count := 0 } h hm
    rw [iter_sync_map_count T hT1 hT2 n 0 (by omega)] at h1 h2
    constructor
    · simpa using h2
    · simpa using h1
  · intro node c d t h
    exact on_sync_not_operational node c d t h
  · intro m h
    exact sync_step_map_disabled m h

/-- Across `n` sync events, a map whose transmission type exceeds 0xF0
never transmits, whatever the node state and the map's other fields. -/
theorem transmits_reserved_aux (n : Nat) :
    ∀ (node : SyncNode) (i : Nat) (m : PdoMap),
      node.tpdo_maps[i]? = some m → 240 < m.trans_type →
      transmits_of_map n node i = 0
      ∧ ∃ m₂, (run_syncs n node).tpdo_maps[i]? = some m₂
          ∧ m₂.trans_type = m.trans_type := by
  induction n with
  | zero =>
    intro node i m hm _
    exact ⟨rfl, m, hm, rfl⟩
  | succ n ih =>
    intro node i m hm h
    by_cases hst : node.nmt_state = "OPERATIONAL"
    · obtain ⟨_, hmap, hflag⟩ := on_sync_get node 0x80 [] 0 i m hst hm
      have hT₂ : 240 < (sync_step_map m).1.trans_type := by
        rw [sync_step_map_trans_type]
        exact h
      obtain ⟨ih1, m₂, ih2, ih3⟩ := ih (on_sync node 0x80 [] 0).1 i
        (sync_step_map m).1 hmap hT₂
      constructor
      · show (if (on_sync node 0x80 [] 0).2.getD i false then 1 else 0)
            + transmits_of_map n (on_sync node 0x80 [] 0).1 i = 0
        have hf : (on_sync node 0x80 [] 0).2.getD i false = false := by
          simp [List.getD_eq_getElem?_getD, hflag,
            sync_step_map_reserved m h]
        rw [hf, ih1]
        simp
      · exact ⟨m₂, ih2, by rw [ih3, sync_step_map_trans_type]⟩
    · have heq := on_sync_not_operational node 0x80 [] 0 hst
      obtain ⟨ih1, m₂, ih2, ih3⟩ := ih node i m hm h
      constructor
      · show (if (on_sync node 0x80 [] 0).2.getD i false then 1 else 0)
            + transmits_of_map n (on_sync node 0x80 [] 0).1 i = 0
        rw [heq]
        have hf : ((node.tpdo_maps.map fun _ => false).getD i false)
            = false := by
          rw [List.getD_eq_getElem?_getD, List.getElem?_map]
          cases node.tpdo_maps[i]? <;> rfl
        simp [hf, ih1]
      · show ∃ m₂, (run_syncs n (on_sync node 0x80 [] 0).1).tpdo_maps[i]?
            = some m₂ ∧ m₂.trans_type = m.trans_type
        rw [heq]
        exact ⟨m₂, ih2, ih3⟩

/-- C7: an outbound map with transmission type strictly above 0xF0 (the
reserved / event-driven range 241–255) never transmits via the sync
counting protocol: across any number of delivered sync events, for any
counter value, enabled flag and device state, its transmit count is 0. -/
theorem C7_reserved_types_never_transmit (node : SyncNode) (n i : Nat)
    (m : PdoMap) (hm : node.tpdo_maps[i]? = some m)
    (h : 0xF0 < m.trans_type) :
    transmits_of_map n node i = 0 :=
  (transmits_reserved_aux n node i m hm h).1

/-- Counterexample to C8 as stated: a node attached to a network and then
detached once ends with its network reference cleared, and a second
detach does not complete — it raises AttributeError. -/
theorem C8_counterexample_second_detach_raises :
    (remove_network (associate_network { node_id := 2, network := none }
        [])).map Prod.fst
      = Except.ok { node_id := 2, network := none }
    ∧ remove_network { node_id := 2, network := none }
      = Except.error PyError.attributeError := by
  exact ⟨rfl, rfl⟩

/-- C8 (amended): detach is not idempotent.  A first detach after attach
succeeds and clears the network reference; a second detach on the
resulting node raises AttributeError at the `self.network.unsubscribe`
attribute access — before any unsubscribe is reached, so no duplicate
unsubscribe is performed. -/
theorem C8_amended_detach_not_idempotent (node : NetNode)
    (net : List (Nat × Handler)) :
    (∃ result, remove_network (associate_network node net)
        = Except.ok result)
    ∧ ∀ node₂ rest,
        remove_network (associate_network node net)
          = Except.ok (node₂, rest) →
        remove_network node₂ = Except.error PyError.attributeError := by
  constructor
  · exact ⟨_, rfl⟩
  · intro node₂ rest h
    have hcomp : remove_network (associate_network node net)
        = Except.ok ({ node with network := none },
            unsubscribe (unsubscribe (subscribe (subscribe (subscribe net
                (0x600 + node.node_id) Handler.sdo_on_request) 0
                Handler.nmt_on_command) 0x80 Handler.on_sync_handler)
              (0x600 + node.node_id) Handler.sdo_on_request) 0
              Handler.nmt_on_command) := rfl
    rw [hcomp] at h
    simp only [Except.ok.injEq, Prod.mk.injEq] at h
    obtain ⟨h1, _⟩ := h
    rw [← h1]
    rfl

/-- C9 evaluated at the failing input: attaching node 2 to a network with
an empty subscription table subscribes three handlers (SDO requests at
0x602, NMT commands at 0, `_on_sync` at 0x80); the following detach
removes only the first two — the sync handler's subscription survives
detach, a stale subscription. -/
theorem C9_sync_handler_survives_detach :
    remove_network (associate_network { node_id := 2, network := none } [])
      = Except.ok ({ node_id := 2, network := none },
          [(0x80, Handler.on_sync_handler)]) := rfl

/-- Witness for C1: on `nodeStoreFix` (entry resolves, readable, no read
callback registered, store holds 2A 00), `get_data` returns the stored
raw bytes. -/
theorem C1_witness :
    find_object nodeStoreFix.object_dictionary 0x2000 0 = Except.ok objU16
    ∧ dsLookup nodeStoreFix.data_store 0x2000 0 = some [42, 0]
    ∧ get_data nodeStoreFix 0x2000 0 true = Except.ok [42, 0] := by
  refine ⟨rfl, rfl, ?_⟩
  exact (C1_get_data_fallback_order nodeStoreFix 0x2000 0 true objU16 rfl
    (fun _ => rfl)).2.1 (fun c hc => absurd hc (List.not_mem_nil c))
    [42, 0] rfl

/-- Witness for C2: with T = 2, four sync events on an OPERATIONAL node
with one enabled map yield exactly 4 / 2 = 2 transmits and final counter
4 % 2 = 0. -/
theorem C2_witness :
    1 ≤ 2 ∧ 2 ≤ 240
    ∧ transmits_of_map 4 syncNodeFix 0 = 4 / 2
    ∧ (run_syncs 4 syncNodeFix).tpdo_maps[0]?
        = some { enabled := true, trans_type := 2,
                 internal_sync_count := 4 % 2 } := by
  have h := (C2_sync_transmission_counting 2 (by decide) (by decide)).2.2.1
    syncNodeFix 4 0 rfl rfl
  exact ⟨by decide, by decide, h.1, h.2⟩

/-- Witness for C3: index 0x3000 is absent from `nodeFix`'s dictionary, so
both accesses abort with 0x06020000. -/
theorem C3_witness :
    alistLookup nodeFix.object_dictionary 0x3000 = none
    ∧ get_data nodeFix 0x3000 0 false = Except.error 0x06020000
    ∧ (set_data nodeFix 0x3000 0 [1] false).1 = Except.error 0x06020000 := by
  have h := (C3_resolution_errors nodeFix 0x3000 0 false [1] false).1 rfl
  exact ⟨rfl, h.1, h.2⟩

/-- Witness for C4: writing a single byte to the 16-bit numeric entry of
`nodeFix` aborts with LengthMismatch 0x06070010 and leaves the node
unchanged. -/
theorem C4_witness :
    find_object nodeFix.object_dictionary 0x2000 0 = Except.ok objU16
    ∧ NUMBER_TYPES.contains objU16.data_type = true
    ∧ ¬(8 * ([1] : List Nat).length = objU16.bit_length)
    ∧ set_data nodeFix 0x2000 0 [1] true
        = (Except.error 0x06070010, nodeFix) := by
  refine ⟨rfl, rfl, by decide, ?_⟩
  exact (C4_length_guard nodeFix 0x2000 0 [1] true objU16 rfl
    (fun _ => rfl) rfl).1 (by decide)

/-- Witness for C5: on `nodeFix` (no write callback registered) a valid
write succeeds, stores 2A 00 under (0x2000, 0x00), and the stored bytes
are retrievable verbatim. -/
theorem C5_witness :
    runWriteCallbacks nodeFix.write_callbacks 0x2000 0 objU16 [42, 0]
        nodeFix.ext = (none, 0)
    ∧ set_data nodeFix 0x2000 0 [42, 0] true
        = (Except.ok (),
           { nodeFix with
               ext := 0,
               data_store := dsInsert nodeFix.data_store 0x2000 0 [42, 0] })
    ∧ dsLookup (dsInsert nodeFix.data_store 0x2000 0 [42, 0]) 0x2000 0
        = some [42, 0] := by
  have h := ((C5_write_interceptors_then_store (σ := Nat)).1 nodeFix 0x2000 0
    [42, 0] true objU16 rfl (fun _ => rfl) (fun _ => rfl)).1 0 rfl
  exact ⟨rfl, h.1, h.2⟩

/-- Witness for C6: the round trip on `nodeFix` — write 2A 00 to
(0x2000, 0x00), then read it back — returns exactly 2A 00. -/
theorem C6_witness :
    (set_data nodeFix 0x2000 0 [42, 0] true).1 = Except.ok ()
    ∧ get_data (set_data nodeFix 0x2000 0 [42, 0] true).2 0x2000 0 true
        = Except.ok [42, 0] :=
  C6_round_trip nodeFix 0x2000 0 [42, 0] true true objU16 rfl rfl rfl
    (fun _ => rfl) rfl (fun cb hcb => absurd hcb (List.not_mem_nil cb))

/-- Witness for C7: the transmission-type-255 map of `syncNode255`
transmits zero times across 1000 sync events. -/
theorem C7_witness :
    syncNode255.tpdo_maps[0]?
      = some { enabled := true, trans_type := 255, internal_sync_count := 0 }
    ∧ 0xF0 < 255
    ∧ transmits_of_map 1000 syncNode255 0 = 0 := by
  refine ⟨rfl, by decide, ?_⟩
  exact C7_reserved_types_never_transmit syncNode255 1000 0
    { enabled := true, trans_type := 255, internal_sync_count := 0 } rfl
    (by decide)

/-- Witness for C8 (amended): attach node 2 to an empty-table network,
detach once (succeeds), detach again — AttributeError. -/
theorem C8_witness :
    remove_network (associate_network { node_id := 2, network := none } [])
      = Except.ok ({ node_id := 2, network := none },
          [(0x80, Handler.on_sync_handler)])
    ∧ remove_network { node_id := 2, network := none }
      = Except.error PyError.attributeError := by
  refine ⟨rfl, ?_⟩
  exact (C8_amended_detach_not_idempotent { node_id := 2, network := none }
    []).2 { node_id := 2, network := none }
    [(0x80, Handler.on_sync_handler)] rfl

/-- Witness for C10: writing to the read-only entry of `nodeROFix` with
the writability check on aborts with 0x06010002 and leaves the node
— store and external state — exactly unchanged. -/
theorem C10_witness :
    find_object nodeROFix.object_dictionary 0x2001 0 = Except.ok objRO
    ∧ objRO.writable = false
    ∧ set_data nodeROFix 0x2001 0 [1, 2] true
        = (Except.error 0x06010002, nodeROFix) := by
  refine ⟨rfl, rfl, ?_⟩
  exact (C10_set_data_validation_atomic nodeROFix 0x2001 0 [1, 2]
    true).2.2.1 objRO rfl rfl rfl
